import Mathlib

/-!
Verification of the FeatureFence playground server (server.js + eslint.config.mjs).

The embedding models the `/api/lint` request handler, the `toItems`
normalizer, and the fixed ESLint configuration, as pure Lean functions.
JavaScript `undefined`/`null`/non-string JSON values are modelled with
`Option`; the ESLint engine (`eslint.lintText`, an external dependency, not
part of this repository) is an uninterpreted function parameter receiving
exactly the data the handler passes it: the fixed configuration and the code
string.  An exception raised by the engine is modelled with `Except.error`
carrying a JavaScript `Error` value (name, message, stack).
-/

/-- The character class trimmed by JavaScript `String.prototype.trim`:
the ECMAScript WhiteSpace production (TAB, VT, FF, SP, NBSP, ZWNBSP and
every Unicode Space_Separator code point — U+1680, U+2000..U+200A,
U+202F, U+205F, U+3000) together with the LineTerminator production
(LF, CR, LS U+2028, PS U+2029). -/
def isJsWhitespace (c : Char) : Bool :=
  c == ' ' || c == '\t' || c == '\n' || c == '\r' ||
  c.toNat == 11 || c.toNat == 12 || c.toNat == 0xa0 ||
  c.toNat == 0x1680 ||
  (decide (0x2000 ≤ c.toNat) && decide (c.toNat ≤ 0x200a)) ||
  c.toNat == 0x202f || c.toNat == 0x205f || c.toNat == 0x3000 ||
  c.toNat == 0xfeff || c.toNat == 0x2028 || c.toNat == 0x2029

/-- Trim `isJsWhitespace` characters from both ends of a character list. -/
def jsTrimList (cs : List Char) : List Char :=
  ((cs.dropWhile isJsWhitespace).reverse.dropWhile isJsWhitespace).reverse

/-- JavaScript `code.trim()` on a string. -/
def jsTrim (s : String) : String :=
  String.mk (jsTrimList s.toList)

/-- JavaScript `v || d` for an optional string `v`: the default is taken
when the value is absent (`undefined`/`null`) or is the empty string
(both are falsy). -/
def jsStringOrDefault (v : Option String) (d : String) : String :=
  match v with
  | none => d
  | some s => if s = "" then d else s

/-- A JavaScript `Error` value: `String(e)` uses name and message;
the stack is carried to state what the response does not contain. -/
structure JsError where
  name : String
  message : String
  stack : String
deriving DecidableEq

/-- JavaScript `String(e)` on an `Error` (Error.prototype.toString):
"name: message", omitting the empty part and the separator with it. -/
def jsErrorToString (e : JsError) : String :=
  if e.name = "" then e.message
  else if e.message = "" then e.name
  else e.name ++ ": " ++ e.message

/-- One ESLint message object, as read by `toItems`:
`ruleId` (string or null), `message`, numeric `severity` (2 = error),
and the position fields, each possibly undefined. -/
structure LintMessage where
  ruleId : Option String
  message : String
  severity : Nat
  line : Option Nat
  column : Option Nat
  endLine : Option Nat
  endColumn : Option Nat
deriving DecidableEq

/-- One element of the array returned by `eslint.lintText`. -/
structure LintResult where
  messages : List LintMessage
deriving DecidableEq

/-- The `location` object built by `toItems` (and by the
unsupported-language branch, where only line and column are set). -/
structure LintLocation where
  line : Option Nat
  column : Option Nat
  endLine : Option Nat
  endColumn : Option Nat
deriving DecidableEq

/-- One normalized diagnostic item `{rule, message, severity, location}`. -/
structure Item where
  rule : String
  message : String
  severity : String
  location : LintLocation
deriving DecidableEq

/-- The `summary` object `{level, errors, warnings, total}`. -/
structure Summary where
  level : String
  errors : Nat
  warnings : Nat
  total : Nat
deriving DecidableEq

/-- The normalized report `{summary, items}` produced by `toItems` and
returned (together with `ok` and `language`) by the lint endpoint. -/
structure DiagnosticReport where
  summary : Summary
  items : List Item
deriving DecidableEq

/-- `eslintResults?.[0]` then `r?.messages || []`: the messages of the
first result, or the empty list when the results array is missing, empty,
or its first element is absent. -/
def messagesOf (eslintResults : Option (List LintResult)) : List LintMessage :=
  match eslintResults.bind List.head? with
  | none => []
  | some r => r.messages

/-- `messages.filter(m => m.severity === 2).length` in `toItems`. -/
def errorCountOf (ms : List LintMessage) : Nat :=
  (ms.filter fun m => m.severity == 2).length

/-- `messages.filter(m => m.severity !== 2).length` in `toItems`. -/
def warnCountOf (ms : List LintMessage) : Nat :=
  (ms.filter fun m => !(m.severity == 2)).length

/-- The per-message mapping inside `toItems`:
`{rule: m.ruleId || "(no-rule)", message, severity: m.severity === 2 ?
"error" : "warn", location: {line, column, endLine, endColumn}}`. -/
def itemOfMessage (m : LintMessage) : Item :=
  { rule := jsStringOrDefault m.ruleId "(no-rule)"
  , message := m.message
  , severity := if m.severity == 2 then "error" else "warn"
  , location :=
      { line := m.line, column := m.column
      , endLine := m.endLine, endColumn := m.endColumn } }

/-- The normalizer `toItems(eslintResults)` of server.js. -/
def toItems (eslintResults : Option (List LintResult)) : DiagnosticReport :=
  { summary :=
      { level :=
          if errorCountOf (messagesOf eslintResults) ≠ 0 then "error"
          else if warnCountOf (messagesOf eslintResults) ≠ 0 then "warn"
          else "ok"
      , errors := errorCountOf (messagesOf eslintResults)
      , warnings := warnCountOf (messagesOf eslintResults)
      , total := (messagesOf eslintResults).length }
  , items := (messagesOf eslintResults).map itemOfMessage }

/-- Options of the `featurefence/no-unsupported-feature` rule in
eslint.config.mjs. -/
structure FeatureFenceRuleOptions where
  mode : String
  targets : List String
deriving DecidableEq

/-- The single configuration object of eslint.config.mjs
(`config[0]`, the value the handler passes as `overrideConfig`). -/
structure EslintConfig where
  ecmaVersion : Nat
  sourceType : String
  ruleSeverity : String
  ruleOptions : FeatureFenceRuleOptions
deriving DecidableEq

/-- The configuration exported by eslint.config.mjs: ecmaVersion 2022,
module source type, and the `featurefence/no-unsupported-feature` rule at
severity "warn" with mode "baseline-or-targets" and a hardcoded
Browserslist targets list. -/
def featurefenceConfig : EslintConfig :=
  { ecmaVersion := 2022
  , sourceType := "module"
  , ruleSeverity := "warn"
  , ruleOptions :=
      { mode := "baseline-or-targets"
      , targets := [">=0.5%", "last 2 versions", "not dead"] } }

/-- The request body of `POST /api/lint` as the handler reads it:
`language` and `targets` are optional strings; `code = none` models a
`code` field that is absent or not a string (`typeof code !== "string"`). -/
structure LintRequest where
  language : Option String
  code : Option String
  targets : Option String
deriving DecidableEq

/-- The three response shapes of the lint endpoint: HTTP 400
`{error}` (no report), HTTP 200 `{ok: true, language, summary, items}`,
and HTTP 500 `{error}`. -/
inductive LintResponse where
  | badRequest (error : String)
  | ok (language : String) (report : DiagnosticReport)
  | serverError (error : String)
deriving DecidableEq

/-- The 400 body text of the handler. -/
def missingCodeError : String := "Missing \x27code\x27 (string)"

/-- `s.toLowerCase()`: ASCII lowercasing applied characterwise (this
covers every language identifier the server compares against). -/
def jsToLower (s : String) : String :=
  String.mk (s.toList.map Char.toLower)

/-- `String(language || "javascript").toLowerCase()`. -/
def effectiveLanguage (language : Option String) : String :=
  jsToLower (jsStringOrDefault language "javascript")

/-- The dispatch guard `lang === "javascript" || lang === "js"`. -/
def selectsJs (lang : String) : Bool :=
  lang == "javascript" || lang == "js"

/-- The literal response object of the unsupported-language branch. -/
def unsupportedReport (lang : String) : DiagnosticReport :=
  { summary := { level := "warn", errors := 0, warnings := 1, total := 1 }
  , items :=
      [ { rule := "unsupported-language"
        , message := "Language \x27" ++ lang ++
            "\x27 is not yet supported by this server. Use \x27javascript\x27 to see ESLint-based results."
        , severity := "warn"
        , location := { line := some 1, column := some 1
                      , endLine := none, endColumn := none } } ] }

/-- The type of the external ESLint engine: given the override
configuration and the code text, it returns the results array or raises. -/
def LintTextFn : Type :=
  EslintConfig → String → Except JsError (List LintResult)

/-- The `POST /api/lint` handler of server.js: validate `code`, resolve
the language, run ESLint (with the fixed configuration from
eslint.config.mjs) for JavaScript, otherwise return the synthetic
unsupported-language report; an engine exception becomes a 500 whose
body is `String(e)`.  The handler never reads `req.targets`. -/
def lintHandler (lintText : LintTextFn) (req : LintRequest) : LintResponse :=
  match req.code with
  | none => LintResponse.badRequest missingCodeError
  | some code =>
    if jsTrim code = "" then LintResponse.badRequest missingCodeError
    else
      if selectsJs (effectiveLanguage req.language) then
        match lintText featurefenceConfig code with
        | Except.error e => LintResponse.serverError (jsErrorToString e)
        | Except.ok results =>
            LintResponse.ok (effectiveLanguage req.language)
              (toItems (some results))
      else
        LintResponse.ok (effectiveLanguage req.language)
          (unsupportedReport (effectiveLanguage req.language))

/-- Splitting a list by a Boolean predicate preserves length. -/
theorem errorCountOf_add_warnCountOf (ms : List LintMessage) :
    errorCountOf ms + warnCountOf ms = ms.length := by
  unfold errorCountOf warnCountOf
  induction ms with
  | nil => rfl
  | cons m t ih =>
    by_cases h : m.severity = 2
    · simp [List.filter_cons, h] at ih ⊢
      omega
    · simp [List.filter_cons, h] at ih ⊢
      omega

/-- `dropWhile` leaves the empty list exactly when every element
satisfies the predicate. -/
theorem dropWhile_nil_iff_all {p : Char → Bool} {l : List Char} :
    l.dropWhile p = [] ↔ l.all p = true := by
  rw [List.dropWhile_eq_nil_iff, List.all_eq_true]

/-- The JavaScript trim of a string is empty exactly when the string
consists only of whitespace characters. -/
theorem jsTrim_eq_empty_iff (s : String) :
    jsTrim s = "" ↔ s.toList.all isJsWhitespace = true := by
  have hempty : ("" : String) = String.mk [] := rfl
  rw [jsTrim, hempty, String.ext_iff]
  show jsTrimList s.toList = [] ↔ _
  rw [jsTrimList]
  rw [List.reverse_eq_nil_iff, dropWhile_nil_iff_all]
  simp only [List.all_eq_true]
  constructor
  · intro h x hx
    rcases List.mem_append.mp
        ((List.takeWhile_append_dropWhile (p := isJsWhitespace)
            (l := s.toList)) ▸ hx) with hx1 | hx1
    · exact List.mem_takeWhile_imp hx1
    · exact h x (List.mem_reverse.mpr hx1)
  · intro h x hx
    refine h x ?_
    have hsub : (s.toList.dropWhile isJsWhitespace).Sublist s.toList :=
      List.dropWhile_sublist _
    exact hsub.mem (List.mem_reverse.mp hx)

/-- The two summary identities hold for every normalized report. -/
theorem toItems_sum (results : Option (List LintResult)) :
    (toItems results).summary.total =
      (toItems results).summary.errors + (toItems results).summary.warnings ∧
    (toItems results).summary.total = (toItems results).items.length := by
  constructor
  · simp only [toItems]
    exact (errorCountOf_add_warnCountOf _).symm
  · simp [toItems]

/-- Claim C6: for every input passed to the normalizer, the resulting
summary.level is "error" when the error count is positive, otherwise
"warn" when the warning count is positive, otherwise "ok". -/
theorem summary_level_rule (results : Option (List LintResult)) :
    (toItems results).summary.level =
      (if (toItems results).summary.errors > 0 then "error"
       else if (toItems results).summary.warnings > 0 then "warn"
       else "ok") := by
  simp only [toItems]
  rcases Nat.eq_zero_or_pos (errorCountOf (messagesOf results)) with he | he
  · rcases Nat.eq_zero_or_pos (warnCountOf (messagesOf results)) with hw | hw
    · simp [he, hw]
    · simp [he, hw, Nat.pos_iff_ne_zero.mp hw]
  · simp [he, Nat.pos_iff_ne_zero.mp he, Nat.not_eq_zero_of_lt he]

/-- Claim C1: every DiagnosticReport returned by the lint endpoint (the
JavaScript analyzer branch as well as the unsupported-language branch)
satisfies summary.total = summary.errors + summary.warnings and
summary.total = items.length. -/
theorem lint_summary_consistent (lintText : LintTextFn) (req : LintRequest)
    (lang : String) (rep : DiagnosticReport)
    (h : lintHandler lintText req = LintResponse.ok lang rep) :
    rep.summary.total = rep.summary.errors + rep.summary.warnings ∧
    rep.summary.total = rep.items.length := by
  unfold lintHandler at h
  split at h
  · simp at h
  · split at h
    · simp at h
    · split at h
      · split at h
        · simp at h
        · simp only [LintResponse.ok.injEq] at h
          obtain ⟨h1, h2⟩ := h
          subst h2
          exact toItems_sum _
      · simp only [LintResponse.ok.injEq] at h
        obtain ⟨h1, h2⟩ := h
        subst h2
        simp [unsupportedReport]

/-- Claim C1 witness: the identities evaluated on a concrete request
(an unsupported-language request on one side, exercising the theorem). -/
theorem lint_summary_consistent_witness :
    (unsupportedReport "python").summary.total =
      (unsupportedReport "python").summary.errors +
        (unsupportedReport "python").summary.warnings ∧
    (unsupportedReport "python").summary.total =
      (unsupportedReport "python").items.length :=
  lint_summary_consistent (fun _ _ => Except.ok [])
    { language := some "python", code := some "x", targets := none }
    "python" (unsupportedReport "python") (by decide)

/-- Claim C7: the lint pipeline is deterministic — with the engine fixed,
two requests with identical language, code and targets fields receive
identical responses. -/
theorem lint_deterministic (lintText : LintTextFn) (r1 r2 : LintRequest)
    (hl : r1.language = r2.language) (hc : r1.code = r2.code)
    (ht : r1.targets = r2.targets) :
    lintHandler lintText r1 = lintHandler lintText r2 := by
  obtain ⟨l1, c1, t1⟩ := r1
  obtain ⟨l2, c2, t2⟩ := r2
  dsimp only at hl hc ht
  subst hl; subst hc; subst ht
  rfl

/-- Claim C7 witness: applying determinism at a concrete pair of equal
requests. -/
theorem lint_deterministic_witness :
    lintHandler (fun _ _ => Except.ok [])
      { language := some "js", code := some "x", targets := some "t" } =
    lintHandler (fun _ _ => Except.ok [])
      { language := some "js", code := some "x", targets := some "t" } :=
  lint_deterministic (fun _ _ => Except.ok [])
    { language := some "js", code := some "x", targets := some "t" }
    { language := some "js", code := some "x", targets := some "t" }
    rfl rfl rfl

/-- Claim C8: the response never depends on the targets field — the
handler never reads it, and the engine is invoked with the fixed
configuration (whose hardcoded targets come from eslint.config.mjs), so
two requests identical except in targets receive identical responses. -/
theorem lint_independent_of_targets (lintText : LintTextFn)
    (r1 r2 : LintRequest)
    (hl : r1.language = r2.language) (hc : r1.code = r2.code) :
    lintHandler lintText r1 = lintHandler lintText r2 := by
  obtain ⟨l1, c1, t1⟩ := r1
  obtain ⟨l2, c2, t2⟩ := r2
  dsimp only at hl hc
  subst hl; subst hc
  rfl

/-- Claim C8 witness: two concrete requests that differ only in their
targets value receive the same response. -/
theorem lint_independent_of_targets_witness :
    lintHandler (fun _ _ => Except.ok [])
      { language := some "javascript", code := some "x"
      , targets := some "chrome 50" } =
    lintHandler (fun _ _ => Except.ok [])
      { language := some "javascript", code := some "x"
      , targets := some "chrome 120" } :=
  lint_independent_of_targets (fun _ _ => Except.ok [])
    { language := some "javascript", code := some "x"
    , targets := some "chrome 50" }
    { language := some "javascript", code := some "x"
    , targets := some "chrome 120" }
    rfl rfl

/-- Claim C10: normalization depends only on the first analyzer result
(messages of later results are dropped); a missing or empty results list
yields the ok/0/0/0 summary with no items; a message without a rule id is
reported with rule "(no-rule)". -/
theorem toItems_shape :
    (∀ r rest, toItems (some (r :: rest)) = toItems (some [r])) ∧
    toItems none =
      { summary := { level := "ok", errors := 0, warnings := 0, total := 0 }
      , items := [] } ∧
    toItems (some []) =
      { summary := { level := "ok", errors := 0, warnings := 0, total := 0 }
      , items := [] } ∧
    (∀ m : LintMessage, m.ruleId = none →
      (itemOfMessage m).rule = "(no-rule)") ∧
    (∀ r rest, (toItems (some (r :: rest))).items =
      r.messages.map itemOfMessage) := by
  refine ⟨fun r rest => rfl, by decide, by decide, ?_, fun r rest => rfl⟩
  intro m hm
  simp [itemOfMessage, hm, jsStringOrDefault]

/-- Claim C10 witness: the no-rule-id clause applied to a concrete
message. -/
theorem toItems_shape_witness :
    (itemOfMessage
      { ruleId := none, message := "m", severity := 1, line := none
      , column := none, endLine := none, endColumn := none }).rule =
      "(no-rule)" :=
  toItems_shape.2.2.2.1 _ rfl

/-- Claim C9: the effective language is the lowercased language field,
defaulting to "javascript" when the field is absent or empty, and any
letter case of "javascript" or "js" selects the JavaScript analyzer
branch. -/
theorem language_resolution :
    effectiveLanguage none = "javascript" ∧
    effectiveLanguage (some "") = "javascript" ∧
    (∀ s, s ≠ "" → effectiveLanguage (some s) = jsToLower s) ∧
    (∀ s, (jsToLower s = "javascript" ∨ jsToLower s = "js") →
      selectsJs (effectiveLanguage (some s)) = true) := by
  refine ⟨rfl, rfl, ?_, ?_⟩
  · intro s hs
    simp [effectiveLanguage, jsStringOrDefault, hs]
  · intro s hs
    have hne : s ≠ "" := by
      intro h
      subst h
      rcases hs with h | h
      · exact absurd h (by decide)
      · exact absurd h (by decide)
    have heff : effectiveLanguage (some s) = jsToLower s := by
      simp [effectiveLanguage, jsStringOrDefault, hne]
    rcases hs with h | h <;> rw [heff, h] <;> rfl

/-- Claim C9 witness: a mixed-case "JavaScript" language field selects
the JavaScript analyzer branch. -/
theorem language_resolution_witness :
    selectsJs (effectiveLanguage (some "JavaScript")) = true :=
  language_resolution.2.2.2 "JavaScript" (Or.inl (by decide))

/-- Claim C3: a request whose code field is absent, not a string
(modelled as `none`), or consists only of whitespace is answered with the
400 error body (which carries an error string and no report); a request
whose code has any non-whitespace character is never answered with a 400
body. -/
theorem code_validation (lintText : LintTextFn) (req : LintRequest) :
    ((req.code = none ∨
        ∃ s, req.code = some s ∧ s.toList.all isJsWhitespace = true) →
      lintHandler lintText req = LintResponse.badRequest missingCodeError) ∧
    (∀ s, req.code = some s → ¬ s.toList.all isJsWhitespace = true →
      ∀ err, lintHandler lintText req ≠ LintResponse.badRequest err) := by
  obtain ⟨l, c, t⟩ := req
  dsimp only
  constructor
  · rintro (hc | ⟨s, hc, hall⟩)
    · subst hc
      rfl
    · subst hc
      have htr : jsTrim s = "" := (jsTrim_eq_empty_iff s).mpr hall
      simp [lintHandler, htr]
  · intro s hc hall err
    subst hc
    have hne : ¬ jsTrim s = "" := fun h => hall ((jsTrim_eq_empty_iff s).mp h)
    simp only [lintHandler, if_neg hne]
    by_cases hj : selectsJs (effectiveLanguage l) = true
    · simp only [hj, if_true]
      split <;> simp
    · simp only [hj]
      simp

/-- Claim C3 witness: a whitespace-only code field (ASCII whitespace and
an ideographic space U+3000) is rejected with the 400 body on a concrete
request. -/
theorem code_validation_witness :
    lintHandler (fun _ _ => Except.ok [])
      { language := some "javascript", code := some " \t\n　"
      , targets := none } =
      LintResponse.badRequest missingCodeError :=
  (code_validation (fun _ _ => Except.ok [])
      { language := some "javascript", code := some " \t\n　"
      , targets := none }).1
    (Or.inr ⟨" \t\n　", rfl, by decide⟩)

/-- Claim C2: a request with valid code whose effective language is not
JavaScript is not failed: it receives the 200 response whose report holds
exactly one finding with rule "unsupported-language" and severity "warn",
and whose summary.level is "warn". -/
theorem unsupported_language_response (lintText : LintTextFn)
    (req : LintRequest) (code : String)
    (hc : req.code = some code) (hne : jsTrim code ≠ "")
    (hnj : selectsJs (effectiveLanguage req.language) = false) :
    lintHandler lintText req =
      LintResponse.ok (effectiveLanguage req.language)
        (unsupportedReport (effectiveLanguage req.language)) ∧
    (unsupportedReport (effectiveLanguage req.language)).items.length = 1 ∧
    (∀ it ∈ (unsupportedReport (effectiveLanguage req.language)).items,
      it.rule = "unsupported-language" ∧ it.severity = "warn") ∧
    (unsupportedReport (effectiveLanguage req.language)).summary.level =
      "warn" := by
  obtain ⟨l, c, t⟩ := req
  dsimp only at hc hnj ⊢
  subst hc
  refine ⟨?_, rfl, ?_, rfl⟩
  · simp [lintHandler, hne, hnj]
  · intro it hit
    simp only [unsupportedReport, List.mem_singleton] at hit
    subst hit
    exact ⟨rfl, rfl⟩

/-- Claim C2 witness: a concrete request for the language "brainfuck". -/
theorem unsupported_language_response_witness :
    lintHandler (fun _ _ => Except.ok [])
      { language := some "brainfuck", code := some "x", targets := none } =
      LintResponse.ok (effectiveLanguage (some "brainfuck"))
        (unsupportedReport (effectiveLanguage (some "brainfuck"))) ∧
    (unsupportedReport (effectiveLanguage (some "brainfuck"))).items.length =
      1 ∧
    (∀ it ∈ (unsupportedReport (effectiveLanguage (some "brainfuck"))).items,
      it.rule = "unsupported-language" ∧ it.severity = "warn") ∧
    (unsupportedReport
        (effectiveLanguage (some "brainfuck"))).summary.level = "warn" :=
  unsupported_language_response (fun _ _ => Except.ok [])
    { language := some "brainfuck", code := some "x", targets := none }
    "x" rfl (by decide) (by decide)

/-- Claim C5, corrected: when the engine raises, the endpoint answers
with the 500 body whose error string is `String(e)` — the stringified
exception, which carries the exception name and message (the stack trace
is not included). -/
theorem analyzer_error_response (lintText : LintTextFn) (req : LintRequest)
    (code : String) (e : JsError)
    (hc : req.code = some code) (hne : jsTrim code ≠ "")
    (hjs : selectsJs (effectiveLanguage req.language) = true)
    (herr : lintText featurefenceConfig code = Except.error e) :
    lintHandler lintText req =
      LintResponse.serverError (jsErrorToString e) := by
  obtain ⟨l, c, t⟩ := req
  dsimp only at hc hjs
  subst hc
  simp [lintHandler, hne, hjs, herr]

/-- Claim C5 witness: the 500 body evaluated on a concrete raising
engine. -/
theorem analyzer_error_response_witness :
    lintHandler
      (fun _ _ => Except.error
        { name := "Error", message := "boom", stack := "trace" })
      { language := some "js", code := some "x", targets := none } =
      LintResponse.serverError
        (jsErrorToString
          { name := "Error", message := "boom", stack := "trace" }) :=
  analyzer_error_response
    (fun _ _ => Except.error
      { name := "Error", message := "boom", stack := "trace" })
    { language := some "js", code := some "x", targets := none }
    "x" { name := "Error", message := "boom", stack := "trace" }
    rfl (by decide) (by decide) rfl

/-- Claim C5 counterexample: the 500 body is not a fixed generic
message — it embeds the exception message verbatim, so two engine
failures that differ only in their internal message produce two
different response bodies, each containing that internal detail. -/
theorem analyzer_error_leaks_details :
    lintHandler
      (fun _ _ => Except.error
        { name := "TypeError", message := "secret internal detail A"
        , stack := "at stackA" })
      { language := some "javascript", code := some "x", targets := none } =
      LintResponse.serverError "TypeError: secret internal detail A" ∧
    lintHandler
      (fun _ _ => Except.error
        { name := "TypeError", message := "secret internal detail B"
        , stack := "at stackB" })
      { language := some "javascript", code := some "x", targets := none } =
      LintResponse.serverError "TypeError: secret internal detail B" ∧
    ("TypeError: secret internal detail A" : String) ≠
      "TypeError: secret internal detail B" :=
  ⟨by decide, by decide, by decide⟩

/-- A finding of the feature-compatibility rule naming the runtime
("chrome") and the feature (the View Transitions API), as the plugin
would emit for the narrow-targets request of the scenario. -/
def viewTransitionFinding : LintMessage :=
  { ruleId := some "featurefence/no-unsupported-feature"
  , message :=
      "View Transitions API (startViewTransition) is not supported in chrome 110"
  , severity := 1
  , line := some 1, column := some 1
  , endLine := some 1, endColumn := some 30 }

/-- A fixed engine standing for ESLint with the feature-compatibility
plugin: it reports `viewTransitionFinding` for the scenario code.  It
receives only the configuration and the code, which is all the handler
ever passes to the engine. -/
def demoFeatureEngine : LintTextFn :=
  fun _ _ => Except.ok [{ messages := [viewTransitionFinding] }]

/-- The scenario request whose targets resolve to chrome below the
version that supports the feature. -/
def reqNarrowTargets : LintRequest :=
  { language := some "javascript"
  , code := some "document.startViewTransition(() => \x7b\x7d);"
  , targets := some "chrome 110" }

/-- The same request with targets resolving to chrome at a version that
supports the feature. -/
def reqWideTargets : LintRequest :=
  { language := some "javascript"
  , code := some "document.startViewTransition(() => \x7b\x7d);"
  , targets := some "chrome 120" }

/-- Claim C4 (code bug): the request's targets value does not determine
the feature-compatibility findings.  The handler never reads the targets
field and always configures the engine with the hardcoded targets of
eslint.config.mjs, so the two requests of the scenario — identical code,
targets below and at the supporting version — receive identical
responses (here each carrying the same single finding, instead of one
and zero findings respectively). -/
theorem targets_do_not_affect_findings :
    lintHandler demoFeatureEngine reqNarrowTargets =
      lintHandler demoFeatureEngine reqWideTargets ∧
    lintHandler demoFeatureEngine reqNarrowTargets =
      LintResponse.ok "javascript"
        (toItems (some [{ messages := [viewTransitionFinding] }])) ∧
    (toItems (some [{ messages := [viewTransitionFinding] }])).items.length =
      1 :=
  ⟨rfl, by decide, rfl⟩
